import Mathlib

/-!
# Verification of the goodmetrics order-handling core

Shallow embedding of the Python sources of the repository:

* `src/goodmetrics/order.py` (legacy dataclass orders) — namespace `Legacy`
* `src/src/goodmetrics/core/position.py` — `Position`
* `src/src/goodmetrics/core/order.py` — `OrderBase`, `OrderManager` and its
  methods

Python numbers in the legacy orders and in `OrderBase` are embedded as `ℚ`
(those code paths only compare values, never round), while `Position.add`
actually computes with `Decimal`, so positions carry a faithful model of
Python `Decimal` values (coefficient × 10^exponent) with the default context
arithmetic: 28 significant digits, `ROUND_HALF_EVEN`.  `uuid.UUID` is
embedded as `ℕ`, Python exceptions as an explicit `PyErr` value via
`Except`/`Option`, and Python `dict` (insertion-ordered) as an association
list `List (ℕ × α)` with dict-faithful insert (update in place, append if
new) and delete.

`isinstance` checks against plain classes (`Decimal`, `uuid.UUID`,
`Position`, `bool`) are statically satisfied by the types of the embedding
and are not modelled.  The core manager methods that instead check against
the subscripted generic `Type[OrderABC]` are different: at run time
`isinstance(x, Type[OrderABC])` raises `TypeError` ("Subscripted generics
cannot be used with class and instance checks") on every call, so those
methods never get past their first statement; they are modelled as
unconditionally raising, and the code after the check is dead.
-/

/-- Order/position side.  The legacy files spell the two values
`'Buy/Long'`/`'Sell/Short'`, the core files spell them
`'BUY/LONG'`/`'SELL/SHORT'`; both are two-valued and map to this type. -/
inductive Side : Type
  | buyLong : Side
  | sellShort : Side
deriving DecidableEq, Repr

/-- The Python exceptions raised by the modelled code paths. -/
inductive PyErr : Type
  | valueError : String → PyErr
  | typeError : String → PyErr
  | keyError : String → PyErr
  | attributeError : String → PyErr
  | invalidOperation : PyErr
  | divisionByZero : PyErr
deriving DecidableEq, Repr

/-! ## Python Decimal arithmetic (default context: 28 digits, half-even)

`position.py` computes with `decimal.Decimal` under the default context,
which rounds every arithmetic result to 28 significant digits with
`ROUND_HALF_EVEN`.  A value is a coefficient times a power of ten.  The
operations below are value-faithful: each returns a representative with the
numeric value CPython produces (representations may carry trailing zeros
where CPython reduces an exact quotient to its ideal exponent — a display
difference only, since `Decimal` comparison and all further rounding depend
only on the numeric value).  The context limits `Emin`/`Emax` (±999999) are
far outside every exponent arising here and are not modelled. -/

/-- Python `decimal.Decimal` value: `coeff · 10 ^ exp`. -/
structure Decimal : Type where
  coeff : ℤ
  exp : ℤ
deriving DecidableEq, Repr

/-- Decimal-digit count of a natural number (fuel-bounded structural
recursion; the fuel `n + 1` always suffices). -/
def digitsFuel : ℕ → ℕ → ℕ
  | 0, _ => 0
  | fuel+1, n => if n < 10 then 1 else digitsFuel fuel (n / 10) + 1

/-- Number of decimal digits of `n` (1 for 0, as for a one-digit coefficient). -/
def digitCount (n : ℕ) : ℕ := digitsFuel (n + 1) n

/-- Round-half-even of `(q·divisor + r) / divisor` given `0 ≤ r < divisor`:
keep `q` below the halfway point, go to `q + 1` above it, and break exact
ties toward the even quotient (`ROUND_HALF_EVEN`). -/
def roundHalfEven (q r divisor : ℕ) : ℕ :=
  if 2 * r < divisor then q
  else if divisor < 2 * r then q + 1
  else if q % 2 = 0 then q else q + 1

/-- Round an exact coefficient/exponent pair to 28 significant digits
(half-even), carrying into the next power of ten when rounding overflows to
a 29-digit coefficient.  Exact results of at most 28 digits pass through
unchanged, as in the `decimal` specification. -/
def roundCoeff (c : ℤ) (e : ℤ) : Decimal :=
  let a := c.natAbs
  let dc := digitCount a
  if dc ≤ 28 then { coeff := c, exp := e }
  else
    let k := dc - 28
    let divisor := 10 ^ k
    let m := roundHalfEven (a / divisor) (a % divisor) divisor
    if m = 10 ^ 28 then
      { coeff := if c < 0 then -((10:ℤ) ^ 27) else (10:ℤ) ^ 27, exp := e + k + 1 }
    else
      { coeff := if c < 0 then -(m : ℤ) else (m : ℤ), exp := e + k }

/-- Decimal addition: align exponents, add exactly, round to 28 digits. -/
def decAdd (x y : Decimal) : Decimal :=
  let e := min x.exp y.exp
  roundCoeff (x.coeff * 10 ^ (x.exp - e).toNat + y.coeff * 10 ^ (y.exp - e).toNat) e

/-- Decimal negation (exact). -/
def decNeg (x : Decimal) : Decimal := { coeff := -x.coeff, exp := x.exp }

/-- Decimal subtraction: addition of the negation. -/
def decSub (x y : Decimal) : Decimal := decAdd x (decNeg y)

/-- Decimal multiplication: exact product of coefficients, summed exponents,
rounded to 28 digits. -/
def decMul (x y : Decimal) : Decimal := roundCoeff (x.coeff * y.coeff) (x.exp + y.exp)

/-- Floor of the base-10 logarithm of `a / b` for `a, b ≥ 1`: the digit-count
difference is off by at most one and is corrected by a single comparison. -/
def ratMag (a b : ℕ) : ℤ :=
  let e0 : ℤ := (digitCount a : ℤ) - (digitCount b : ℤ)
  if 0 ≤ e0 then
    (if b * 10 ^ e0.toNat ≤ a then e0 else e0 - 1)
  else
    (if b ≤ a * 10 ^ (-e0).toNat then e0 else e0 - 1)

/-- Decimal division for a nonzero divisor: scale so the quotient has exactly
28 significant digits, divide with remainder, round half-even, and carry on
overflow.  A zero dividend yields zero; the zero-divisor case is unreachable
behind the zero test of the caller (`Position.add` surfaces the Python
`InvalidOperation`/`DivisionByZero` exceptions there) and is given a dummy
value for totality. -/
def decDiv (x y : Decimal) : Decimal :=
  if x.coeff = 0 ∨ y.coeff = 0 then { coeff := 0, exp := 0 }
  else
    let a := x.coeff.natAbs
    let b := y.coeff.natAbs
    let t : ℤ := ratMag a b - 27
    let divisor : ℕ := if 0 ≤ t then b * 10 ^ t.toNat else b
    let bigN : ℕ := if 0 ≤ t then a else a * 10 ^ (-t).toNat
    let m := roundHalfEven (bigN / divisor) (bigN % divisor) divisor
    let neg : Bool := (decide (x.coeff < 0)) != (decide (y.coeff < 0))
    if m = 10 ^ 28 then
      { coeff := if neg then -((10:ℤ) ^ 27) else (10:ℤ) ^ 27, exp := t + 1 + (x.exp - y.exp) }
    else
      { coeff := if neg then -(m:ℤ) else (m:ℤ), exp := t + (x.exp - y.exp) }

/-- Numeric (rational) value of a Decimal, for stating value-level facts. -/
def Decimal.toRat (d : Decimal) : ℚ :=
  if 0 ≤ d.exp then (d.coeff : ℚ) * 10 ^ d.exp.toNat else (d.coeff : ℚ) / 10 ^ (-d.exp).toNat

/-! ## Position (`src/src/goodmetrics/core/position.py`) -/

/-- `Position`: side, size and per-unit price (both `Decimal`).
`Position.__init__` assigns the private fields directly (no validation); the
`uuid4` identifier is irrelevant to the merge arithmetic and is not part of
the value. -/
structure Position : Type where
  side : Side
  size : Decimal
  price : Decimal
deriving DecidableEq, Repr

/-- `Position.add` (position.py lines 75–102).  Mirrors the source:

* `if self.side != other.side: raise ValueError(...)`;
* `self_side_weight = self.size / (self.size + other.size)` — `Decimal`
  division raises when the divisor has value zero (`InvalidOperation` for
  `0/0`, `DivisionByZero` for `x/0` with `x ≠ 0`), surfaced here as explicit
  errors guarding the division;
* otherwise a new `Position` with size `self.size + other.size` and price
  `w · self.price + (1 - w) · other.price`, every operation in 28-digit
  Decimal arithmetic. -/
def Position.add (self other : Position) : Except PyErr Position :=
  if self.side ≠ other.side then
    .error (.valueError "Cannot add positions with different sides.")
  else
    let s := decAdd self.size other.size
    if s.coeff = 0 then
      (if self.size.coeff = 0 then .error .invalidOperation else .error .divisionByZero)
    else
      let w := decDiv self.size s
      .ok { side := self.side
            size := s
            price := decAdd (decMul w self.price)
              (decMul (decSub { coeff := 1, exp := 0 } w) other.price) }

/-- `Position.is_empty` (position.py lines 152–154): `size == 0`, a numeric
comparison. -/
def Position.is_empty (self : Position) : Bool :=
  self.size.coeff == 0

/-! ## Legacy dataclass orders (`src/goodmetrics/order.py`) -/

namespace Legacy

/-- Legacy `MarketOrder` dataclass fields (order.py lines 7–13). -/
structure MarketOrder : Type where
  side : Side
  size : ℚ
  stop_loss : Option ℚ
  take_profit : Option ℚ
deriving DecidableEq, Repr

/-- `MarketOrder.__post_init__` (order.py lines 15–23): dataclass construction
runs these checks eagerly and raises `ValueError` on the first violated one,
so a constructed value exists only when all checks pass. -/
def MarketOrder.post_init (self : MarketOrder) : Except PyErr MarketOrder :=
  if self.size ≤ 0 then
    .error (.valueError "`size` must be positive")
  else if self.stop_loss.any (fun v => decide (v ≤ 0)) then
    .error (.valueError "`stop_loss` must be positive")
  else if self.take_profit.any (fun v => decide (v ≤ 0)) then
    .error (.valueError "`take_profit` must be positive")
  else
    .ok self

/-- `MarketOrder.is_valid` (order.py lines 25–26): always `True`. -/
def MarketOrder.is_valid (_self : MarketOrder) (_price : ℚ) : Bool :=
  true

/-- Legacy `LimitOrder` dataclass fields (order.py lines 32–39). -/
structure LimitOrder : Type where
  side : Side
  size : ℚ
  target_price : ℚ
  stop_loss : Option ℚ
  take_profit : Option ℚ
deriving DecidableEq, Repr

/-- `LimitOrder.is_valid` (order.py lines 53–57): for `'Buy/Long'` the source
returns `price >= self.target_price`, for `'Sell/Short'` it returns
`price <= self.target_price`. -/
def LimitOrder.is_valid (self : LimitOrder) (price : ℚ) : Bool :=
  if self.side = Side.buyLong then
    decide (self.target_price ≤ price)
  else
    decide (price ≤ self.target_price)

/-- `LimitOrder.is_triggered` (order.py lines 59–63): for `'Buy/Long'` the
source returns `low <= self.target_price`; the `'Sell/Short'` branch reads
`self.target_pric`, an attribute that does not exist on the dataclass, so at
run time that branch raises `AttributeError`. -/
def LimitOrder.is_triggered (self : LimitOrder) (_high low : ℚ) : Except PyErr Bool :=
  if self.side = Side.buyLong then
    .ok (decide (low ≤ self.target_price))
  else
    .error (.attributeError "LimitOrder object has no attribute target_pric")

/-- Legacy `StopOrder` dataclass fields (order.py lines 66–73). -/
structure StopOrder : Type where
  side : Side
  size : ℚ
  target_price : ℚ
  stop_loss : Option ℚ
  take_profit : Option ℚ
deriving DecidableEq, Repr

/-- `StopOrder.is_valid` (order.py lines 87–91): for `'Buy/Long'` the source
returns `price <= self.target_price`, for `'Sell/Short'` it returns
`price >= self.target_price`. -/
def StopOrder.is_valid (self : StopOrder) (price : ℚ) : Bool :=
  if self.side = Side.buyLong then
    decide (price ≤ self.target_price)
  else
    decide (self.target_price ≤ price)

/-- `StopOrder.is_triggered` (order.py lines 93–97): for `'Buy/Long'` the
source returns `low >= self.target_price`; the `'Sell/Short'` branch reads the
nonexistent attribute `self.target_pric` and raises `AttributeError`. -/
def StopOrder.is_triggered (self : StopOrder) (_high low : ℚ) : Except PyErr Bool :=
  if self.side = Side.buyLong then
    .ok (decide (self.target_price ≤ low))
  else
    .error (.attributeError "StopOrder object has no attribute target_pric")

end Legacy

/-! ## Python dict as insertion-ordered association list -/

/-- Lookup in an insertion-ordered association list (Python `d[k]` /
`k in d`). -/
def dictLookup {α : Type} (l : List (ℕ × α)) (k : ℕ) : Option α :=
  match l with
  | [] => none
  | (k2, v) :: rest => if k2 = k then some v else dictLookup rest k

/-- Python `k in d`. -/
def dictContains {α : Type} (l : List (ℕ × α)) (k : ℕ) : Bool :=
  (dictLookup l k).isSome

/-- Python `d[k] = v`: updates the value in place when the key exists,
appends the pair otherwise (dicts preserve insertion order). -/
def dictInsert {α : Type} (l : List (ℕ × α)) (k : ℕ) (v : α) : List (ℕ × α) :=
  if dictContains l k then
    l.map (fun p => if p.1 = k then (k, v) else p)
  else
    l ++ [(k, v)]

/-- Python `del d[k]`. -/
def dictErase {α : Type} (l : List (ℕ × α)) (k : ℕ) : List (ℕ × α) :=
  l.filter (fun p => p.1 != k)

/-! ## Core order entity (`src/src/goodmetrics/core/order.py`) -/

/-- Attribute state of a core `OrderBase` object (order.py lines 66–74).
The `uuid4` identifier is embedded as a `ℕ` chosen by the caller; theorems
that depend on uuid4 collision-freeness hypothesise the identifier fresh.
The subclasses `MarketOrder` and `LimitOrder` (order.py lines 281–312) only
override `__repr__`/`__str__`, so they share this one state type. -/
structure OrderBase : Type where
  identifier : ℕ
  size : ℚ
  side : Side
  price : Option ℚ
  tp_price : Option ℚ
  sl_price : Option ℚ
  trigger_price : Option ℚ
  reduce_only : Bool
  is_conditional : Bool
deriving DecidableEq, Repr

/-- `OrderBase.__init__` (order.py lines 76–108).  The constructor assigns the
private fields (`self._size = size`, …) directly, bypassing the validating
property setters, and performs no check of its own, so construction always
completes; and it sets `self._is_conditional = False` unconditionally, even
when the `trigger_price` argument is not `None`. -/
def OrderBase.init (identifier : ℕ) (size : ℚ) (side : Side) (price : ℚ)
    (tp_price sl_price trigger_price : Option ℚ) (reduce_only : Bool) : OrderBase :=
  { identifier := identifier
    size := size
    side := side
    price := some price
    tp_price := tp_price
    sl_price := sl_price
    trigger_price := trigger_price
    reduce_only := reduce_only
    is_conditional := false }

/-- Property setter `size` (order.py lines 168–176): raises `ValueError`
unless the new value is strictly positive. -/
def OrderBase.set_size (self : OrderBase) (value : ℚ) : Except PyErr OrderBase :=
  if value ≤ 0 then
    .error (.valueError "`size` must be greater than 0.")
  else
    .ok { self with size := value }

/-- Property setter `price` (order.py lines 193–201): a present value must be
strictly positive. -/
def OrderBase.set_price (self : OrderBase) (value : Option ℚ) : Except PyErr OrderBase :=
  match value with
  | some v =>
    if v ≤ 0 then
      .error (.valueError "`price` must be greater than 0.")
    else
      .ok { self with price := some v }
  | none => .ok { self with price := none }

/-- Property setter `trigger_price` (order.py lines 246–258): a present value
must be strictly positive; when the value is not `None` the setter also sets
`_is_conditional = True` (and a later `None` assignment does not reset it). -/
def OrderBase.set_trigger_price (self : OrderBase) (value : Option ℚ) : Except PyErr OrderBase :=
  match value with
  | some v =>
    if v ≤ 0 then
      .error (.valueError "`trigger_price` must be greater than 0.")
    else
      .ok { self with is_conditional := true, trigger_price := some v }
  | none => .ok { self with trigger_price := none }

/-! ## OrderManager (`src/src/goodmetrics/core/order.py` lines 315–658) -/

/-- The three manager mappings (order.py lines 320–329), all keyed by the
order identifier. -/
structure OrderManager : Type where
  order_mapper : List (ℕ × OrderBase)
  conditional_order_mapper : List (ℕ × OrderBase)
  mutually_exclusive_order_mapper : List (ℕ × ℕ)
deriving DecidableEq, Repr

/-- Triggering protocols are pure predicates on orders (order.py lines 18–21,
spec section 6: pure functions of the order and the bar context the caller
closed over). -/
def TriggeringProtocol : Type := OrderBase → Bool

/-- Execution protocols are pure predicates on orders (order.py lines 12–15). -/
def ExecutionProtocol : Type := OrderBase → Bool

/-- `OrderManager.add_to_order_mapper` (order.py lines 352–370): the first
statement evaluates `isinstance(order, Type[OrderABC])`, and an `isinstance`
check against a subscripted generic raises `TypeError` on every call, so the
method never reaches its `is_conditional` `ValueError` check nor the store
`self._order_mapper[order.identifier] = order` — both are dead code. -/
def OrderManager.add_to_order_mapper (_self : OrderManager) (_order : OrderBase) :
    Except PyErr OrderManager :=
  .error (.typeError "Subscripted generics cannot be used with class and instance checks")

/-- `OrderManager.add_to_conditional_order_mapper` (order.py lines 372–392):
same unconditional `TypeError` from `isinstance(order, Type[OrderABC])`; the
`is_conditional` check and the store are dead code. -/
def OrderManager.add_to_conditional_order_mapper (_self : OrderManager) (_order : OrderBase) :
    Except PyErr OrderManager :=
  .error (.typeError "Subscripted generics cannot be used with class and instance checks")

/-- `OrderManager.remove_from_order_mapper` (order.py lines 394–412): its
`isinstance(identifier, uuid.UUID)` check is against the plain class
`uuid.UUID` and passes for every identifier key, so only the membership test
is modelled: deletes the identifier, raising `KeyError` when absent. -/
def OrderManager.remove_from_order_mapper (self : OrderManager) (identifier : ℕ) :
    Except PyErr OrderManager :=
  if dictContains self.order_mapper identifier then
    .ok { self with order_mapper := dictErase self.order_mapper identifier }
  else
    .error (.keyError "Order not found.")

/-- `OrderManager.remove_from_conditional_order_mapper` (order.py lines
414–431): as for `remove_from_order_mapper`, the plain-class `uuid.UUID`
`isinstance` check passes and only the membership test is modelled. -/
def OrderManager.remove_from_conditional_order_mapper (self : OrderManager) (identifier : ℕ) :
    Except PyErr OrderManager :=
  if dictContains self.conditional_order_mapper identifier then
    .ok { self with conditional_order_mapper := dictErase self.conditional_order_mapper identifier }
  else
    .error (.keyError "Order not found.")

/-- `OrderManager.add_mutually_exclusive_relationship` (order.py lines
433–473): the first statement evaluates `isinstance(order1, Type[OrderABC])`
and raises `TypeError` on every call (subscripted generic); the
mapper-membership `KeyError` checks and the symmetric store into
`_mutually_exclusive_order_mapper` are dead code. -/
def OrderManager.add_mutually_exclusive_relationship (_self : OrderManager)
    (_order1 _order2 : OrderBase) : Except PyErr OrderManager :=
  .error (.typeError "Subscripted generics cannot be used with class and instance checks")

/-- `OrderManager.remove_mutually_exclusive_relationship` (order.py lines
475–502): same unconditional `TypeError` from
`isinstance(order1, Type[OrderABC])`; the membership checks and deletions
are dead code. -/
def OrderManager.remove_mutually_exclusive_relationship (_self : OrderManager)
    (_order1 _order2 : OrderBase) : Except PyErr OrderManager :=
  .error (.typeError "Subscripted generics cannot be used with class and instance checks")

/-- Classmethod `OrderManager.check_triggering` (order.py lines 520–534):
delegates to the protocol. -/
def OrderManager.check_triggering (order : OrderBase) (protocol : TriggeringProtocol) : Bool :=
  protocol order

/-- Classmethod `OrderManager.check_execution` (order.py lines 504–518). -/
def OrderManager.check_execution (order : OrderBase) (protocol : ExecutionProtocol) : Bool :=
  protocol order

/-- `OrderManager.generate_tp_sl_orders` (order.py lines 552–585): builds a
reduce-only `LimitOrder` per present bracket price (fresh uuid4 identifiers
are passed in as `tp_identifier`/`sl_identifier`), and when both exist calls
`add_mutually_exclusive_relationship` on them before returning; that call
raises `TypeError` at its first `isinstance` statement, and the source does
not catch it, so the exception propagates out of the derivation. -/
def OrderManager.generate_tp_sl_orders (self : OrderManager) (order : OrderBase)
    (tp_identifier sl_identifier : ℕ) :
    Except PyErr (OrderManager × Option OrderBase × Option OrderBase) :=
  let tp_order : Option OrderBase :=
    order.tp_price.map (fun p => OrderBase.init tp_identifier order.size order.side p none none none true)
  let sl_order : Option OrderBase :=
    order.sl_price.map (fun p => OrderBase.init sl_identifier order.size order.side p none none none true)
  match tp_order, sl_order with
  | some t, some s =>
    match self.add_mutually_exclusive_relationship t s with
    | .error e => .error e
    | .ok m2 => .ok (m2, some t, some s)
  | _, _ => .ok (self, tp_order, sl_order)

/-- Second phase of `solve_conditional_orders_triggering` (order.py lines
611–614): for each collected identifier, look the order up in the conditional
mapper, remove it there, and re-file it via `add_to_order_mapper`.  A raised
exception propagates out of the Python loop while the mutations already made
persist on `self`, so the result carries the manager state reached at the
point of the exception. -/
def OrderManager.applyTriggered (self : OrderManager) :
    List ℕ → OrderManager × Option PyErr
  | [] => (self, none)
  | identifier :: rest =>
    match dictLookup self.conditional_order_mapper identifier with
    | none => (self, some (.keyError "Order not found."))
    | some order =>
      match self.remove_from_conditional_order_mapper identifier with
      | .error e => (self, some e)
      | .ok m1 =>
        match m1.add_to_order_mapper order with
        | .error e => (m1, some e)
        | .ok m2 => m2.applyTriggered rest

/-- `OrderManager.solve_conditional_orders_triggering` (order.py lines
587–616).  Phase one iterates a snapshot (`list(...items())`) of the
conditional mapper, collecting the identifiers the protocol triggers, without
mutating anything; phase two applies the removals/re-filings.  The Python
method either returns `triggered_ids` or raises; the pair carries the final
manager state together with that outcome. -/
def OrderManager.solve_conditional_orders_triggering (self : OrderManager)
    (triggering_protocol : TriggeringProtocol) : OrderManager × Except PyErr (List ℕ) :=
  let triggered_ids : List ℕ :=
    (self.conditional_order_mapper.filter
      (fun p => OrderManager.check_triggering p.2 triggering_protocol)).map (fun p => p.1)
  match self.applyTriggered triggered_ids with
  | (m, none) => (m, .ok triggered_ids)
  | (m, some e) => (m, .error e)

/-- Second phase of `solve_orders_execution` (order.py lines 642–644): each
executed identifier is looked up and removed from the order mapper.  The
mutually exclusive mapper and the conditional mapper are not touched. -/
def OrderManager.applyExecuted (self : OrderManager) :
    List ℕ → OrderManager × Option PyErr
  | [] => (self, none)
  | identifier :: rest =>
    match dictLookup self.order_mapper identifier with
    | none => (self, some (.keyError "Order not found."))
    | some _ =>
      match self.remove_from_order_mapper identifier with
      | .error e => (self, some e)
      | .ok m1 => m1.applyExecuted rest

/-- `OrderManager.solve_orders_execution` (order.py lines 618–646): collects
the identifiers the execution protocol accepts over a snapshot of the order
mapper, then removes each from the order mapper, and returns the list. -/
def OrderManager.solve_orders_execution (self : OrderManager)
    (execution_protocol : ExecutionProtocol) : OrderManager × Except PyErr (List ℕ) :=
  let executed_ids : List ℕ :=
    (self.order_mapper.filter
      (fun p => OrderManager.check_execution p.2 execution_protocol)).map (fun p => p.1)
  match self.applyExecuted executed_ids with
  | (m, none) => (m, .ok executed_ids)
  | (m, some e) => (m, .error e)

/-! ## Decidable equality for embedded results -/

instance {ε α : Type} [DecidableEq ε] [DecidableEq α] : DecidableEq (Except ε α) := fun a b =>
  match a, b with
  | .error e, .error f =>
    if h : e = f then isTrue (by rw [h]) else isFalse (fun hh => h (Except.error.inj hh))
  | .error _, .ok _ => isFalse (fun hh => Except.noConfusion hh)
  | .ok _, .error _ => isFalse (fun hh => Except.noConfusion hh)
  | .ok x, .ok y =>
    if h : x = y then isTrue (by rw [h]) else isFalse (fun hh => h (Except.ok.inj hh))

/-! ## Concrete fixtures used by the theorems below -/

/-- Position of size 10 at price 100, long side. -/
def posA : Position := { side := Side.buyLong, size := { coeff := 10, exp := 0 }, price := { coeff := 100, exp := 0 } }

/-- Position of size 10 at price 110, long side. -/
def posB : Position := { side := Side.buyLong, size := { coeff := 10, exp := 0 }, price := { coeff := 110, exp := 0 } }

/-- Position of size 1 at price 100, long side (weighted average with `posD`
is the nonterminating 308/3). -/
def posC : Position := { side := Side.buyLong, size := { coeff := 1, exp := 0 }, price := { coeff := 100, exp := 0 } }

/-- Position of size 2 at price 104, long side. -/
def posD : Position := { side := Side.buyLong, size := { coeff := 2, exp := 0 }, price := { coeff := 104, exp := 0 } }

/-- Empty long position (size 0, price 0), the constructor defaults. -/
def emptyLongA : Position := { side := Side.buyLong, size := { coeff := 0, exp := 0 }, price := { coeff := 0, exp := 0 } }

/-- Second empty long position. -/
def emptyLongB : Position := { side := Side.buyLong, size := { coeff := 0, exp := 0 }, price := { coeff := 0, exp := 0 } }

/-- Legacy long limit order with target 102. -/
def longLimit102 : Legacy.LimitOrder :=
  { side := Side.buyLong, size := 1, target_price := 102, stop_loss := none, take_profit := none }

/-- Legacy long stop order with target 102. -/
def longStop102 : Legacy.StopOrder :=
  { side := Side.buyLong, size := 1, target_price := 102, stop_loss := none, take_profit := none }

/-- Legacy short limit order with target 102. -/
def shortLimit102 : Legacy.LimitOrder :=
  { side := Side.sellShort, size := 1, target_price := 102, stop_loss := none, take_profit := none }

/-- Legacy short stop order with target 102. -/
def shortStop102 : Legacy.StopOrder :=
  { side := Side.sellShort, size := 1, target_price := 102, stop_loss := none, take_profit := none }

/-- Legacy long limit order with target 100. -/
def longLimit100 : Legacy.LimitOrder :=
  { side := Side.buyLong, size := 1, target_price := 100, stop_loss := none, take_profit := none }

/-- Legacy long stop order with the same side and target as `longLimit100`. -/
def longStop100 : Legacy.StopOrder :=
  { side := Side.buyLong, size := 1, target_price := 100, stop_loss := none, take_profit := none }

/-- Conditional core order `i`: state after `trigger_price` was assigned through
its setter, so `is_conditional` is true — the only reachable way into the
conditional mapper, since `add_to_conditional_order_mapper` requires the flag. -/
def condOrder (i : ℕ) : OrderBase :=
  { identifier := i, size := 1, side := Side.buyLong, price := some 100, tp_price := none,
    sl_price := none, trigger_price := some 50, reduce_only := false, is_conditional := true }

/-- Plain pending core order `i` (no trigger price, not conditional). -/
def pendOrder (i : ℕ) : OrderBase :=
  { identifier := i, size := 1, side := Side.buyLong, price := some 100, tp_price := none,
    sl_price := none, trigger_price := none, reduce_only := false, is_conditional := false }

/-- Manager holding three conditional orders 1, 2, 3 and nothing else. -/
def mgrTriggering : OrderManager :=
  { order_mapper := []
    conditional_order_mapper := [(1, condOrder 1), (2, condOrder 2), (3, condOrder 3)]
    mutually_exclusive_order_mapper := [] }

/-- Triggering protocol that triggers exactly the orders with identifiers 1
and 3. -/
def protoOneAndThree : TriggeringProtocol := fun o => o.identifier == 1 || o.identifier == 3

/-- Manager holding pending orders 1 and 2, OCO-linked both ways. -/
def mgrExecution : OrderManager :=
  { order_mapper := [(1, pendOrder 1), (2, pendOrder 2)]
    conditional_order_mapper := []
    mutually_exclusive_order_mapper := [(1, 2), (2, 1)] }

/-- Execution protocol under which exactly order 1 executes. -/
def protoExecOne : ExecutionProtocol := fun o => o.identifier == 1

/-- Filed parent order with both a take-profit (120) and a stop-loss (80)
price. -/
def parentOrder : OrderBase :=
  { identifier := 1, size := 1, side := Side.buyLong, price := some 100, tp_price := some 120,
    sl_price := some 80, trigger_price := none, reduce_only := false, is_conditional := false }

/-- Manager with only `parentOrder` filed as pending. -/
def mgrBracket : OrderManager :=
  { order_mapper := [(1, parentOrder)]
    conditional_order_mapper := []
    mutually_exclusive_order_mapper := [] }

/-- Core order constructed with `trigger_price = 90` supplied to `__init__`. -/
def c8Constructed : OrderBase := OrderBase.init 1 1 Side.buyLong 100 none none (some 90) false

/-! ## Theorems -/


/-- Claim C1: the triggering sweep is claimed to evaluate the protocol on a
snapshot, then promote each triggered identifier from the conditional bucket
to the pending bucket and return the triggered list (with orders 1 and 3
triggered out of three conditional orders, exactly 1 and 3 promoted and 2
left conditional).  On the code this fails: the re-filing call
`add_to_order_mapper` begins with `isinstance(order, Type[OrderABC])`, which
raises `TypeError` on every call (subscripted generic), so promotion crashes
on the first collected identifier.  On the fixture, order 1 has already been
removed from the conditional mapper when the exception propagates, so it is
lost from both buckets, order 3 is never promoted, and no identifier list is
returned. -/
theorem triggering_sweep_promotion_raises_typeerror :
    mgrTriggering.solve_conditional_orders_triggering protoOneAndThree =
      ({ order_mapper := []
         conditional_order_mapper := [(2, condOrder 2), (3, condOrder 3)]
         mutually_exclusive_order_mapper := [] },
       Except.error (PyErr.typeError
         "Subscripted generics cannot be used with class and instance checks")) := by
  decide

/-- Claim C2: after the execution sweep executes order 1, its OCO partner
order 2 is claimed to be removed from its bucket with the adjacency cleared
on both sides.  On the code this fails: `solve_orders_execution` only removes
executed identifiers from the order mapper and never touches the mutually
exclusive mapper, so order 2 stays pending and the adjacency stays intact. -/
theorem execution_sweep_leaves_oco_partner_filed :
    mgrExecution.solve_orders_execution protoExecOne =
      ({ order_mapper := [(2, pendOrder 2)]
         conditional_order_mapper := []
         mutually_exclusive_order_mapper := [(1, 2), (2, 1)] },
       Except.ok [1]) ∧
    dictContains (mgrExecution.solve_orders_execution protoExecOne).1.order_mapper 2 = true ∧
    dictLookup (mgrExecution.solve_orders_execution protoExecOne).1.mutually_exclusive_order_mapper 1
      = some 2 := by
  decide

/-- Counterexample to claim C3 as stated: `Decimal` arithmetic rounds every
operation to 28 significant digits, so the merged price is not the exact
size-weighted average.  Merging 1@100 with 2@104 gives the price value
102.6666666666666666666666667, while the exact weighted average
(1·100 + 2·104)/(1 + 2) is the nonterminating 308/3. -/
theorem position_add_rounded_counterexample :
    posC.add posD = Except.ok { side := Side.buyLong, size := { coeff := 3, exp := 0 }, price := { coeff := 1026666666666666666666666667, exp := -25 } } ∧
    Decimal.toRat { coeff := 1026666666666666666666666667, exp := -25 } ≠
      (Decimal.toRat posC.size * Decimal.toRat posC.price
        + Decimal.toRat posD.size * Decimal.toRat posD.price)
      / (Decimal.toRat posC.size + Decimal.toRat posD.size) := by
  refine ⟨by decide, ?_⟩
  norm_num [Decimal.toRat, posC, posD, show Int.toNat 25 = 25 from rfl]

/-- Claim C3 (amended): the merge computes size and price in the 28-digit
`Decimal` arithmetic of the default context, so the price is the rounded
weighted average rather than the exact rational.  On the concrete instance
named by the claim the arithmetic is exact: merging 10@100 with 10@110
yields size 20 and price of value 105 (coefficient 105·10^25 at exponent
−25, as the unreduced division path produces it), and merging in either
order yields the same result. -/
theorem position_add_decimal_concrete :
    posA.add posB = Except.ok { side := Side.buyLong, size := { coeff := 20, exp := 0 }, price := { coeff := 1050000000000000000000000000, exp := -25 } } ∧
    Decimal.toRat { coeff := 1050000000000000000000000000, exp := -25 } = 105 ∧
    posA.add posB = posB.add posA := by
  refine ⟨by decide, ?_, by decide⟩
  norm_num [Decimal.toRat, show Int.toNat 25 = 25 from rfl]

/-- Counterexample to claim C4 as stated: for the long limit with target 102
the reference price 100 satisfies `reference ≤ target`, yet `is_valid`
returns `false` (the source tests `price >= self.target_price` for the long
side, the opposite direction of the claim). -/
theorem legacy_limit_is_valid_claim_counterexample :
    longLimit102.is_valid 100 = false ∧ (100 : ℚ) ≤ longLimit102.target_price := by
  decide

/-- Claim C4 (amended): for every legacy limit order and positive reference
price, `is_valid(reference)` holds iff the reference has reached or passed
the target on the adverse side — for a long limit iff `target ≤ reference`,
for a short limit iff `reference ≤ target` (the mirror image of the claimed
directions). -/
theorem legacy_limit_is_valid_adverse_direction (o : Legacy.LimitOrder) (p : ℚ)
    (_hp : 0 < p) :
    o.is_valid p = true ↔
      (o.side = Side.buyLong ∧ o.target_price ≤ p) ∨
      (o.side = Side.sellShort ∧ p ≤ o.target_price) := by
  cases hs : o.side <;> simp [Legacy.LimitOrder.is_valid, hs]

/-- Witness for the amended claim C4 at the long limit with target 102 and
reference price 110. -/
theorem legacy_limit_is_valid_adverse_direction_witness :
    0 < (110 : ℚ) ∧
    (longLimit102.is_valid 110 = true ↔
      (longLimit102.side = Side.buyLong ∧ longLimit102.target_price ≤ 110) ∨
      (longLimit102.side = Side.sellShort ∧ (110 : ℚ) ≤ longLimit102.target_price)) :=
  ⟨by norm_num, legacy_limit_is_valid_adverse_direction longLimit102 110 (by norm_num)⟩

/-- Claim C5: `is_triggered` is claimed to return a boolean for both sides of
both variants.  On the code the long branches do follow the side table
(long limit: `low ≤ target`; long stop inverts the comparison), but both
short branches read the nonexistent attribute `target_pric` and raise
`AttributeError` instead of returning a value. -/
theorem legacy_is_triggered_short_raises_attributeerror :
    longLimit102.is_triggered 110 90 = Except.ok true ∧
    longStop102.is_triggered 110 90 = Except.ok false ∧
    shortLimit102.is_triggered 110 90 =
      Except.error (PyErr.attributeError "LimitOrder object has no attribute target_pric") ∧
    shortStop102.is_triggered 110 90 =
      Except.error (PyErr.attributeError "StopOrder object has no attribute target_pric") := by
  decide

/-- Counterexample to claim C6 as stated: at the exact boundary
`reference = target = 100`, the long limit and the long stop with the same
target are both valid (both comparisons are non-strict), so
`Limit.is_valid(p) = !Stop.is_valid(p)` fails at `p = target`. -/
theorem legacy_limit_stop_mirror_boundary_counterexample :
    longLimit100.is_valid 100 = true ∧ longStop100.is_valid 100 = true ∧
    longLimit100.is_valid 100 ≠ (!longStop100.is_valid 100) := by
  decide

/-- Claim C6 (amended): for a limit and a stop order of the same side and the
same target, `Limit.is_valid(p) = !Stop.is_valid(p)` holds at every reference
price other than the exact target; at `p = target` both predicates hold. -/
theorem legacy_limit_stop_mirror_off_boundary (lo : Legacy.LimitOrder)
    (so : Legacy.StopOrder) (p : ℚ)
    (hside : lo.side = so.side) (htgt : lo.target_price = so.target_price)
    (hne : p ≠ lo.target_price) :
    lo.is_valid p = !so.is_valid p := by
  have hso : so.side = lo.side := hside.symm
  cases hs : lo.side <;>
    simp only [Legacy.LimitOrder.is_valid, Legacy.StopOrder.is_valid, hso, hs, ← htgt,
      if_true, reduceIte] <;>
    rcases lt_or_gt_of_ne hne with h | h <;>
    simp [le_of_lt h, not_le.mpr h]

/-- Witness for the amended claim C6 at side long, target 100, reference
price 105. -/
theorem legacy_limit_stop_mirror_off_boundary_witness :
    longLimit100.side = longStop100.side ∧
    longLimit100.target_price = longStop100.target_price ∧
    (105 : ℚ) ≠ longLimit100.target_price ∧
    longLimit100.is_valid 105 = !longStop100.is_valid 105 :=
  ⟨rfl, rfl, by decide,
    legacy_limit_stop_mirror_off_boundary longLimit100 longStop100 105 rfl rfl (by decide)⟩

/-- Claim C7: deriving the bracket of a filed order with both a take-profit
and a stop-loss price is claimed to succeed and return two linked reduce-only
limit orders.  On the code it always raises: `generate_tp_sl_orders` creates
the two bracket orders and immediately calls
`add_mutually_exclusive_relationship` on them, whose first statement
`isinstance(order1, Type[OrderABC])` raises `TypeError` on every call
(subscripted generic), so the derivation never returns — regardless of the
manager state, for every order with both bracket prices present. -/
theorem generate_tp_sl_orders_raises_typeerror (m : OrderManager) (order : OrderBase)
    (tp_identifier sl_identifier : ℕ) (tp sl : ℚ)
    (htp : order.tp_price = some tp) (hsl : order.sl_price = some sl) :
    m.generate_tp_sl_orders order tp_identifier sl_identifier =
      Except.error (PyErr.typeError
        "Subscripted generics cannot be used with class and instance checks") := by
  simp [OrderManager.generate_tp_sl_orders, OrderManager.add_mutually_exclusive_relationship,
    htp, hsl]

/-- Witness for claim C7: the filed parent with tp 120 and sl 80 and fresh
bracket identifiers 2 and 3 make the derivation raise `TypeError`. -/
theorem generate_tp_sl_orders_raises_typeerror_witness :
    parentOrder.tp_price = some 120 ∧ parentOrder.sl_price = some 80 ∧
    mgrBracket.generate_tp_sl_orders parentOrder 2 3 =
      Except.error (PyErr.typeError
        "Subscripted generics cannot be used with class and instance checks") :=
  ⟨rfl, rfl, generate_tp_sl_orders_raises_typeerror mgrBracket parentOrder 2 3 120 80 rfl rfl⟩

/-- Claim C8: `is_conditional` is claimed to be true immediately after
constructing an order with a non-None trigger price.  On the code the order
constructed with `trigger_price = 90` has `is_conditional = false`
(`__init__` sets `_is_conditional = False` unconditionally, despite its own
inline comment), while assigning the same trigger price through the property
setter does set the flag to true. -/
theorem init_leaves_is_conditional_false :
    c8Constructed.trigger_price = some 90 ∧
    c8Constructed.is_conditional = false ∧
    c8Constructed.set_trigger_price (some 90) =
      Except.ok { c8Constructed with is_conditional := true } := by
  decide

/-- Claim C9: constructing an order with a non-positive size or a
non-positive price is claimed to fail with a validation error at construction
time.  On the core code it does not: `OrderBase.__init__` assigns the private
fields directly, bypassing the validating property setters, so constructing
with size −1 and price −5 completes and yields that bad value; the same size
is rejected only when assigned through the `size` setter, and only the legacy
dataclass path (`MarketOrder.__post_init__`) rejects it eagerly. -/
theorem init_skips_validation :
    OrderBase.init 7 (-1) Side.buyLong (-5) none none none false =
      { identifier := 7, size := -1, side := Side.buyLong, price := some (-5), tp_price := none,
        sl_price := none, trigger_price := none, reduce_only := false, is_conditional := false } ∧
    (OrderBase.init 7 (-1) Side.buyLong (-5) none none none false).set_size (-1) =
      Except.error (PyErr.valueError "`size` must be greater than 0.") ∧
    Legacy.MarketOrder.post_init
        { side := Side.buyLong, size := -1, stop_loss := none, take_profit := none } =
      Except.error (PyErr.valueError "`size` must be positive") := by
  decide

/-- Counterexample to claim C10 as stated: merging two empty same-side
positions does not yield an empty position with price 0 — the weight
computation divides zero by zero and Python `Decimal` raises
(`InvalidOperation`) before any result is built. -/
theorem position_add_empty_empty_counterexample :
    emptyLongA.add emptyLongB = Except.error PyErr.invalidOperation ∧
    emptyLongA.add emptyLongB ≠ Except.ok { side := Side.buyLong, size := { coeff := 0, exp := 0 }, price := { coeff := 0, exp := 0 } } := by
  constructor
  · decide
  · decide

/-- Claim C10 (amended): merging two empty positions (zero size value, i.e.
zero coefficient) of the same side always raises the zero-division error
from the weight computation instead of returning a position. -/
theorem position_add_both_empty_raises (a b : Position) (hside : a.side = b.side)
    (ha : a.size.coeff = 0) (hb : b.size.coeff = 0) :
    a.add b = Except.error PyErr.invalidOperation := by
  simp [Position.add, decAdd, roundCoeff, digitCount, digitsFuel, hside, ha, hb]

/-- Witness for the amended claim C10 at two concrete empty long positions. -/
theorem position_add_both_empty_raises_witness :
    emptyLongA.side = emptyLongB.side ∧ emptyLongA.size.coeff = 0 ∧ emptyLongB.size.coeff = 0 ∧
    emptyLongA.add emptyLongB = Except.error PyErr.invalidOperation :=
  ⟨rfl, rfl, rfl, position_add_both_empty_raises emptyLongA emptyLongB rfl rfl rfl⟩
